import Mathlib

/-!
Shallow embedding of the arc-ask command-line tool (Go sources
internal/cmd/ask.go and internal/cmd/root.go) and proofs about its
prompt/input resolution pipeline.

External collaborators (template store, tmux capture, file system,
process execution, environment) are modelled as explicit environment
records passed to the embedded functions, mirroring the narrow
interfaces the Go code calls through.
-/

deriving instance DecidableEq for Except

namespace ArcAsk

/-- CLI errors produced by the arc-sdk errors package: a message with an
optional cause, an optional hint, and a list of suggested commands. -/
structure CLIError where
  message : String
  cause : Option String := none
  hint : Option String := none
  suggestions : List String := []
deriving DecidableEq, Repr

/-- Whether the first character list is an initial segment of the
second (kernel-computable). -/
def listHasPfx : List Char → List Char → Bool
  | [], _ => true
  | _ :: _, [] => false
  | a :: as, b :: bs => a == b && listHasPfx as bs

/-- strings.HasPrefix from the Go standard library: s begins with pat.
(Defined over the character list so concrete instances evaluate.) -/
def strHasPfx (s pat : String) : Bool := listHasPfx pat.data s.data

/-- strings.TrimSpace from the Go standard library: remove leading and
trailing whitespace. (Defined over the character list so concrete
instances evaluate.) -/
def strTrim (s : String) : String :=
  String.mk (((s.data.dropWhile Char.isWhitespace).reverse.dropWhile
    Char.isWhitespace).reverse)

/-- Lookup in a Go-style string map modelled as an association list
(first binding wins). -/
def mapGet (m : List (String × String)) (k : String) : Option String :=
  match m.find? (fun p => p.fst = k) with
  | some p => some p.snd
  | none => none

/-- Go map assignment `m[k] = v`: the new binding shadows any previous
binding for the same key. -/
def mapSet (m : List (String × String)) (k v : String) : List (String × String) :=
  (k, v) :: m.filter (fun p => p.fst ≠ k)

/-- cloneStringMap from ask.go: returns a fresh map holding a copy of
every entry of the source map (an empty map for an empty source). -/
def cloneStringMap (src : List (String × String)) : List (String × String) :=
  if src.isEmpty then [] else src.foldl (fun out p => mapSet out p.fst p.snd) []

/-- The hard-coded default model of ask.go. -/
def defaultModel : String := "claude-sonnet-4-5-20250929"

/-- A loaded prompt template (pkg prompt, external collaborator): a
declared default model (empty when absent) and the Execute method that
renders (system, user) from variable bindings, failing on a missing
variable. -/
structure Template where
  Model : String
  execute : List (String × String) → Except String (String × String)

/-- The template store interface: LoadWithDefaults by name, none when
the template is not found. -/
structure PromptEnv where
  load : String → Option Template

/-- resolvePrompt from ask.go: handles an @template reference or a
direct question, returning (system, user, model). -/
def resolvePrompt (env : PromptEnv) (args : List String)
    (vars : List (String × String)) (input defModel : String) :
    Except CLIError (String × String × String) :=
  match args with
  | [] =>
    Except.error
      { message := "no prompt or question specified",
        suggestions :=
          ["Ask a direct question: arc-ask \"What is this?\"",
           "Use a template: arc-ask @detect-errors",
           "List templates: arc-ask --list-templates"] }
  | arg :: _ =>
    if strHasPfx arg "@" then
      let templateName := arg.drop 1
      match env.load templateName with
      | none =>
        Except.error
          { message := "template \"" ++ templateName ++ "\" not found",
            hint := some "Check available templates with: arc-ask --list-templates",
            suggestions :=
              ["arc-ask --list-templates",
               "Create template at: ~/.config/arc/prompts/" ++ templateName ++ ".yaml"] }
      | some p =>
        let data := mapSet (cloneStringMap vars) "Input" input
        match p.execute data with
        | Except.error cause =>
          Except.error
            { message := "failed to render template \"" ++ templateName ++ "\"",
              cause := some cause,
              hint := some "Check that all required variables are provided" }
        | Except.ok (sys, user) =>
          let model := if p.Model ≠ "" then p.Model else defModel
          Except.ok (sys, user, model)
    else
      let userPrompt := if input ≠ "" then arg ++ "\n\nInput:\n" ++ input else arg
      Except.ok ("", userPrompt, defModel)

/-- The tmux collaborator interface: ValidateTarget and Capture. -/
structure TmuxEnv where
  validateTarget : String → Except String Unit
  capture : String → Int → Except String String

/-- The result of os.File.Stat that the code inspects: whether the file
mode has the character-device bit (an interactive terminal). -/
structure FileStat where
  isCharDevice : Bool
deriving DecidableEq, Repr

/-- The command input stream of the ask.go path: either a real *os.File
(with its Stat outcome and the content io.ReadAll would yield), or some
other io.Reader, for which the *os.File type assertion fails. -/
inductive CmdStdin where
  | osFile (statResult : Except String FileStat) (readResult : Except String String)
  | otherReader (readResult : Except String String)

namespace AskCmd

/-- gatherInput from ask.go: pane capture when a pane target is given,
else read piped stdin when it is an os file that is not a terminal.
The Bool records whether io.ReadAll ran on the input stream. -/
def gatherInput (tm : TmuxEnv) (stdin : CmdStdin) (pane : String) (lines : Int) :
    Except CLIError (String × Bool) :=
  if pane ≠ "" then
    match tm.validateTarget pane with
    | Except.error _ =>
      Except.error
        { message := "invalid pane target \"" ++ pane ++ "\"",
          hint := some "Pane format must be: session:window.pane (e.g., fe:0.0)" }
    | Except.ok _ =>
      match tm.capture pane lines with
      | Except.error _ =>
        Except.error
          { message := "pane \"" ++ pane ++ "\" not found",
            hint := some "Check that the tmux session and pane exist",
            suggestions := ["tmux list-panes -a"] }
      | Except.ok content => Except.ok (content, false)
  else
    match stdin with
    | CmdStdin.osFile statResult readResult =>
      match statResult with
      | Except.error cause =>
        Except.error { message := "failed to check stdin", cause := some cause }
      | Except.ok stat =>
        if !stat.isCharDevice then
          match readResult with
          | Except.error cause =>
            Except.error { message := "failed to read piped input", cause := some cause }
          | Except.ok data => Except.ok (data, true)
        else
          Except.ok ("", false)
    | CmdStdin.otherReader _ => Except.ok ("", false)

end AskCmd

/-- What the file system holds at a path, as seen through os.Stat and
os.ReadFile: a readable regular file with its content, a regular file
whose read fails, a directory, or a missing (unstattable) path. -/
inductive FSEntry where
  | file (content : String)
  | unreadable (cause : String)
  | dir
  | missing (cause : String)
deriving DecidableEq, Repr

/-- The stripped form of one context reference: trim whitespace, then
strip one leading @ sigil. -/
def stripRef (raw : String) : String :=
  let trimmed := strTrim raw
  if strHasPfx trimmed "@" then trimmed.drop 1 else trimmed

/-- Whether a file-system entry is a readable regular file. -/
def isFileB (e : FSEntry) : Bool :=
  match e with
  | FSEntry.file _ => true
  | _ => false

/-- The content of a file entry (empty for non-files). -/
def fileContent (e : FSEntry) : String :=
  match e with
  | FSEntry.file c => c
  | _ => ""

/-- The context references that survive stripping: stripped paths that
are non-empty, in list order. -/
def activeRefs (refs : List String) : List String :=
  (refs.map stripRef).filter (fun p => p ≠ "")

/-- The expected appendix for a list of resolved context paths: for
each path in order, a label line naming the path followed by the file
content. -/
def contextAppendix (fs : String → FSEntry) : List String → String
  | [] => ""
  | p :: ps =>
    "\n\nContext (" ++ p ++ "):\n" ++ fileContent (fs p) ++ contextAppendix fs ps

/-- Whether an Except value is a success. -/
def exceptIsOk {ε α : Type} (e : Except ε α) : Bool :=
  match e with
  | Except.ok _ => true
  | _ => false

namespace AskCmd

/-- The loop body of mergeContextToPrompt from ask.go, with an explicit
log of the paths passed to os.ReadFile. Stat runs first; a directory is
rejected before any read of it is attempted. -/
def mergeContextLoop (fs : String → FSEntry) (acc : String) (reads : List String) :
    List String → List String × Except CLIError String
  | [] => (reads, Except.ok acc)
  | raw :: rest =>
    let path := stripRef raw
    if path = "" then mergeContextLoop fs acc reads rest
    else
      match fs path with
      | FSEntry.missing cause =>
        (reads, Except.error
          { message := "failed to read context \"" ++ path ++ "\"",
            cause := some cause,
            hint := some "Ensure the file exists and is accessible" })
      | FSEntry.dir =>
        (reads, Except.error
          { message := "context path \"" ++ path ++ "\" is a directory",
            hint := some "Provide a file path (e.g., README.md)" })
      | FSEntry.unreadable cause =>
        (reads ++ [path], Except.error
          { message := "failed to read context \"" ++ path ++ "\"",
            cause := some cause })
      | FSEntry.file data =>
        mergeContextLoop fs (acc ++ "\n\nContext (" ++ path ++ "):\n" ++ data)
          (reads ++ [path]) rest

/-- mergeContextToPrompt from ask.go: appends each context file to the
prompt, labelled by its path. Also returns the os.ReadFile call log. -/
def mergeContextToPrompt (fs : String → FSEntry) (promptText : String)
    (contextFiles : List String) : List String × Except CLIError String :=
  match contextFiles with
  | [] => ([], Except.ok promptText)
  | _ => mergeContextLoop fs promptText [] contextFiles

end AskCmd

/-- The resolved output mode (output.OutputOptions of arc-sdk). -/
inductive OutputMode where
  | table
  | json
  | yaml
  | quiet
deriving DecidableEq, Repr

/-- What an output step writes: a JSON object, a YAML object, a plain
line, or nothing at all. Objects are lists of key/value fields. -/
inductive Rendered where
  | jsonObject (fields : List (String × String))
  | yamlObject (fields : List (String × String))
  | plainLine (text : String)
  | nothingWritten
deriving DecidableEq, Repr

namespace AskCmd

/-- outputResult from ask.go: JSON and YAML both encode the map with
response (trimmed), provider and model; quiet writes nothing; the
default prints the trimmed text. -/
def outputResult (opts : OutputMode) (respText provider model : String) : Rendered :=
  match opts with
  | OutputMode.json =>
    Rendered.jsonObject
      [("response", strTrim respText), ("provider", provider), ("model", model)]
  | OutputMode.yaml =>
    Rendered.yamlObject
      [("response", strTrim respText), ("provider", provider), ("model", model)]
  | OutputMode.quiet => Rendered.nothingWritten
  | OutputMode.table => Rendered.plainLine (strTrim respText)

/-- The model computation of newAskCmd (ask.go RunE steps 2): the
effective model from the flag, resolvePrompt, then the final model. -/
def askFinalModel (env : PromptEnv) (args : List String)
    (vars : List (String × String)) (input flagModel : String) :
    Except CLIError String :=
  let effectiveModel := if flagModel = "" then defaultModel else flagModel
  match resolvePrompt env args vars input effectiveModel with
  | Except.error e => Except.error e
  | Except.ok (_, _, promptModel) =>
    Except.ok (if promptModel = "" then effectiveModel else promptModel)

/-- Steps 1-2 of newAskCmd's RunE (ask.go): gather input, resolve the
prompt with the flag-derived effective model, pick the final model, and
merge context files; returns (system, userWithContext, finalModel). -/
def askResolve (tm : TmuxEnv) (stdin : CmdStdin) (env : PromptEnv)
    (fs : String → FSEntry) (args : List String) (vars : List (String × String))
    (flagModel pane : String) (lines : Int) (contextFiles : List String) :
    Except CLIError (String × String × String) :=
  match gatherInput tm stdin pane lines with
  | Except.error e => Except.error e
  | Except.ok (input, _) =>
    let effectiveModel := if flagModel = "" then defaultModel else flagModel
    match resolvePrompt env args vars input effectiveModel with
    | Except.error e => Except.error e
    | Except.ok (systemPrompt, userPrompt, promptModel) =>
      let finalModel := if promptModel = "" then effectiveModel else promptModel
      match (mergeContextToPrompt fs userPrompt contextFiles).snd with
      | Except.error e => Except.error e
      | Except.ok userWithContext => Except.ok (systemPrompt, userWithContext, finalModel)

end AskCmd

/-- The pieces of the operating-system environment root.go consults:
os.Getenv (empty string when unset), os.UserHomeDir, and whether
os.Stat succeeds at a path. -/
structure OSEnv where
  getenv : String → String
  userHomeDir : String
  fileExists : String → Bool

namespace RootCmd

/-- expandHome from root.go: a leading tilde-slash is replaced with the
home directory; any other path is returned unchanged. -/
def expandHome (env : OSEnv) (path : String) : String :=
  if strHasPfx path "~/" then env.userHomeDir ++ path.drop 1 else path

/-- The state of a BridgeClient: socket path and timeout. -/
structure BridgeClientState where
  socketPath : String
  timeoutSeconds : Nat
deriving DecidableEq, Repr

/-- NewBridgeClient from root.go: socket path from ARC_AI_SOCKET with a
fixed default, timeout fixed at 60 seconds. -/
def NewBridgeClient (env : OSEnv) : BridgeClientState :=
  let socketPath := env.getenv "ARC_AI_SOCKET"
  let socketPath :=
    if socketPath = "" then "~/.config/arc/ai/daemon.sock" else socketPath
  { socketPath := socketPath, timeoutSeconds := 60 }

/-- IsDaemonRunning from root.go: os.Stat succeeds on the tilde-expanded
socket path. -/
def IsDaemonRunning (env : OSEnv) (c : BridgeClientState) : Bool :=
  env.fileExists (expandHome env c.socketPath)

/-- The outcome of one subprocess execution via cmd.Output(): how long
the subprocess ran (wall seconds) and its captured stdout or failure.
exec.Command waits for completion regardless of any context deadline. -/
structure SubprocessFailure where
  isExitError : Bool
  stderr : String
  description : String
deriving DecidableEq, Repr

structure SubprocessRun where
  durationSeconds : Nat
  output : Except SubprocessFailure String
deriving DecidableEq, Repr

/-- The process-execution collaborators of root.go: execLookPath and
execCommand(...).Output(). -/
structure ExecEnv where
  lookPathFound : String → Bool
  run : String → List String → SubprocessRun

/-- Go fmt %q applied to a plain string (escaping of special characters
elided; no claim depends on it). -/
def goQuote (s : String) : String := "\"" ++ s ++ "\""

/-- fallbackAsk from root.go: runs the pi executable directly. The
context timeout parameter is carried exactly as the Go code carries ctx,
and like the Go code (exec.Command, not exec.CommandContext) the
execution below never consults it: the subprocess runs to completion. -/
def fallbackAsk (ex : ExecEnv) (ctxTimeoutSeconds : Nat) (prompt : String)
    (input : List String) : Except String String :=
  let _ := ctxTimeoutSeconds
  if !ex.lookPathFound "pi" then
    Except.error "Pi not found. Install: npm install -g @mariozechner/pi-coding-agent"
  else
    let piArgs := ["--mode", "json", "--print", prompt]
    let piPathAndArgs :=
      match input with
      | first :: _ =>
        if first ≠ "" then
          ("bash", ["-c", "echo " ++ goQuote first ++ " | pi --mode json --print " ++
            goQuote prompt])
        else ("pi", piArgs)
      | [] => ("pi", piArgs)
    let sp := ex.run piPathAndArgs.fst piPathAndArgs.snd
    match sp.output with
    | Except.error f =>
      if f.isExitError then Except.error ("pi failed: " ++ f.stderr)
      else Except.error ("failed to run pi: " ++ f.description)
    | Except.ok out => Except.ok (strTrim out)

/-- Which backend collaborator actually performs the interaction. -/
inductive BackendKind where
  | daemonRPC
  | fallbackAgent
deriving DecidableEq, Repr

/-- BridgeClient.Ask from root.go. The body is a direct call to
fallbackAsk ("For now, fall back to direct execution if daemon not
running"): the daemon RPC is never performed. The BackendKind tag
records which collaborator answered. -/
def BridgeClientAsk (ex : ExecEnv) (c : BridgeClientState) (prompt : String) :
    BackendKind × Except String String :=
  (BackendKind.fallbackAgent, fallbackAsk ex c.timeoutSeconds prompt [])

/-- What the backend-selection portion of root.go's RunE produces:
whether the daemon-missing warning was printed, which backend ran, and
the answer or error. -/
structure BridgeOutcome where
  warned : Bool
  backend : BackendKind
  result : Except String String

/-- The backend selection steps of root.go's RunE: build the client,
warn when the daemon marker is absent, then query through Ask. -/
def bridgeBackendStep (env : OSEnv) (ex : ExecEnv) (prompt : String) : BridgeOutcome :=
  let client := NewBridgeClient env
  let warned := !(IsDaemonRunning env client)
  let answered := BridgeClientAsk ex client prompt
  { warned := warned, backend := answered.fst, result := answered.snd }

/-- The outcome of root.go's gatherInput: a returned (text, error) pair,
or a runtime panic (the nil-FileInfo dereference). -/
inductive RootGatherResult where
  | panics
  | ok (text : String)
  | err (e : CLIError)
deriving DecidableEq, Repr

/-- Whether a gather outcome is a panic. -/
def isPanic (r : RootGatherResult) : Bool :=
  match r with
  | RootGatherResult.panics => true
  | _ => false

/-- gatherInput from root.go. The stdin Stat error is discarded
(`stat, _ := os.Stdin.Stat()`); when Stat fails the FileInfo is nil and
the subsequent stat.Mode() call panics. -/
def gatherInput (tm : TmuxEnv) (stdinStat : Option FileStat)
    (readResult : Except String String) (pane : String) (lines : Int) :
    RootGatherResult :=
  if pane ≠ "" then
    match tm.validateTarget pane with
    | Except.error cause =>
      RootGatherResult.err
        { message := "invalid pane target", cause := some cause,
          suggestions := ["Format: session:window.pane (e.g., dev:0.0)"] }
    | Except.ok _ =>
      match tm.capture pane lines with
      | Except.error cause =>
        RootGatherResult.err
          { message := "failed to capture pane", cause := some cause,
            suggestions := ["Check that the pane exists: tmux list-panes"] }
      | Except.ok content => RootGatherResult.ok content
  else
    match stdinStat with
    | none => RootGatherResult.panics
    | some stat =>
      if !stat.isCharDevice then
        match readResult with
        | Except.error cause => RootGatherResult.err { message := cause }
        | Except.ok data => RootGatherResult.ok data
      else
        RootGatherResult.ok ""

/-- The prompt validation and assembly of root.go's RunE (after input
gathering and context merging): error when both the argument and the
input are missing, else the argument with the input appended under the
Input label. -/
def buildPrompt (args : List String) (input : String) : Except CLIError String :=
  if args = [] ∧ input = "" then
    Except.error
      { message := "no prompt or input provided",
        suggestions :=
          ["Ask a question: arc-ask \x27What is this?\x27",
           "Pipe input: cat file | arc-ask \x27Explain\x27",
           "List templates: arc-ask --list-templates"] }
  else
    let prompt := match args with
      | [] => ""
      | a :: _ => a
    let prompt := if input ≠ "" then prompt ++ "\n\nInput:\n" ++ input else prompt
    Except.ok prompt

/-- The output switch of root.go's RunE: JSON emits an object with only
the response field, quiet writes nothing, and every other mode
(including YAML) prints the answer as a plain line. -/
def outputSwitch (opts : OutputMode) (answer : String) : Rendered :=
  match opts with
  | OutputMode.json => Rendered.jsonObject [("response", answer)]
  | OutputMode.quiet => Rendered.nothingWritten
  | _ => Rendered.plainLine answer

end RootCmd

/-! Fixtures: small concrete collaborator environments used to evaluate
the embedded pipeline at concrete inputs. -/

/-- A tmux collaborator with no reachable server. -/
def tmuxNone : TmuxEnv :=
  { validateTarget := fun _ => Except.ok (),
    capture := fun _ _ => Except.error "no server running" }

/-- A template store holding no templates. -/
def noTemplates : PromptEnv := { load := fun _ => none }

/-- A template whose rendering echoes the reserved Input binding into
the system prompt, to observe the bindings handed to Execute. -/
def observerTemplate : Template :=
  { Model := "",
    execute := fun data => Except.ok ((mapGet data "Input").getD "", "") }

/-- A store answering every lookup with the observer template. -/
def observerEnv : PromptEnv := { load := fun _ => some observerTemplate }

/-- A template that declares model M2 and renders successfully. -/
def tmplM2 : Template :=
  { Model := "M2", execute := fun _ => Except.ok ("sys", "usr") }

/-- A store answering every lookup with tmplM2. -/
def envM2 : PromptEnv := { load := fun _ => some tmplM2 }

/-- An operating-system environment in which the daemon marker file
exists at every path and ARC_AI_SOCKET is unset. -/
def osEnvMarkerPresent : OSEnv :=
  { getenv := fun _ => "",
    userHomeDir := "/home/user",
    fileExists := fun _ => true }

/-- A process environment with pi installed and answering quickly. -/
def execQuick : RootCmd.ExecEnv :=
  { lookPathFound := fun _ => true,
    run := fun _ _ => { durationSeconds := 1, output := Except.ok "ans" } }

/-- A process environment whose pi subprocess runs for one hour before
producing its answer. -/
def execHangs : RootCmd.ExecEnv :=
  { lookPathFound := fun _ => true,
    run := fun _ _ => { durationSeconds := 3600, output := Except.ok "late answer" } }

/-- The key set of a rendered object (empty for non-object output). -/
def renderedKeys (r : Rendered) : List String :=
  match r with
  | Rendered.jsonObject fields => fields.map Prod.fst
  | Rendered.yamlObject fields => fields.map Prod.fst
  | _ => []

/-- A file system with two readable files; every other path is a
directory. -/
def fsTwoFiles : String → FSEntry := fun p =>
  if p = "a.txt" then FSEntry.file "A"
  else if p = "b.txt" then FSEntry.file "B"
  else FSEntry.dir

/-! Helper lemmas about resolvePrompt. -/

/-- resolvePrompt on a template reference whose template loads and
renders successfully. -/
theorem resolvePrompt_template_ok (env : PromptEnv) (arg : String) (rest : List String)
    (vars : List (String × String)) (input dm : String) (p : Template) (sys usr : String)
    (h1 : strHasPfx arg "@" = true)
    (h2 : env.load (arg.drop 1) = some p)
    (h3 : p.execute (mapSet (cloneStringMap vars) "Input" input) = Except.ok (sys, usr)) :
    resolvePrompt env (arg :: rest) vars input dm =
      Except.ok (sys, usr, if p.Model ≠ "" then p.Model else dm) := by
  simp [resolvePrompt, h1, h2, h3]

/-- resolvePrompt on a direct (non-template) question. -/
theorem resolvePrompt_direct (env : PromptEnv) (arg : String) (rest : List String)
    (vars : List (String × String)) (input dm : String)
    (h1 : strHasPfx arg "@" = false) :
    resolvePrompt env (arg :: rest) vars input dm =
      Except.ok ("", if input ≠ "" then arg ++ "\n\nInput:\n" ++ input else arg, dm) := by
  simp [resolvePrompt, h1]

/-- The reserved-input assignment always wins the lookup. -/
theorem mapGet_mapSet_self (m : List (String × String)) (k v : String) :
    mapGet (mapSet m k v) k = some v := by
  have h : List.find? (fun p => decide (p.fst = k))
      ((k, v) :: m.filter (fun p => p.fst ≠ k)) = some (k, v) :=
    List.find?_cons_of_pos _ (by simp)
  simp [mapGet, mapSet]

/-- Claim C3: for every caller-supplied binding map and every collected
input text (including empty), the binding map handed to template
rendering maps the reserved key Input to exactly that text, whether or
not the caller map already bound Input, so the rendered prompt's
reserved input placeholder always reflects the collected text (shown
through a template whose rendering echoes the Input binding). -/
theorem C3_reserved_input_key (vars : List (String × String)) (input dm : String) :
    mapGet (mapSet (cloneStringMap vars) "Input" input) "Input" = some input
    ∧ resolvePrompt observerEnv ["@observe"] vars input dm =
        Except.ok (input, "", dm) := by
  have h1 : mapGet (mapSet (cloneStringMap vars) "Input" input) "Input" = some input :=
    mapGet_mapSet_self _ _ _
  refine ⟨h1, ?_⟩
  have h3 : observerTemplate.execute (mapSet (cloneStringMap vars) "Input" input) =
      Except.ok (input, "") := by
    simp [observerTemplate, h1]
  have h := resolvePrompt_template_ok observerEnv "@observe" [] vars input dm
    observerTemplate input "" (by rfl) (by rfl) h3
  simpa [observerTemplate] using h

/-- Claim C5: for piped input produced by echo "NPE at line 42" and the
free-text question, with no template and no context files, the user
prompt is the question, a blank line, the Input label, a newline, and
the piped text; the system prompt is empty and the model is the
hard-coded default. -/
theorem C5_direct_question_scenario :
    AskCmd.askResolve tmuxNone
      (CmdStdin.osFile (Except.ok { isCharDevice := false })
        (Except.ok "NPE at line 42\n"))
      noTemplates (fun _ => FSEntry.missing "ENOENT")
      ["what\x27s wrong?"] [] "" "" 200 [] =
    Except.ok ("", "what\x27s wrong?\n\nInput:\nNPE at line 42\n", defaultModel) := by
  rfl

/-- Claim C10: in the direct-client path with an empty pane target, when
the command input stream is not an operating-system file, gatherInput
returns empty collected input and no error without reading the stream,
whatever the stream holds. -/
theorem C10_non_file_stdin_ignored (tm : TmuxEnv) (readResult : Except String String)
    (lines : Int) :
    AskCmd.gatherInput tm (CmdStdin.otherReader readResult) "" lines =
      Except.ok ("", false) := by
  simp [AskCmd.gatherInput]

/-- Claim C9 counterexample: with an empty pane target and a failed
stdin Stat (nil file info), root.go's gatherInput dereferences the nil
FileInfo and panics, refuting the claim that it always returns a
(text, error) pair. -/
theorem C9_counterexample :
    RootCmd.isPanic (RootCmd.gatherInput tmuxNone none (Except.ok "data") "" 200) = true := by
  rfl

/-- Claim C9 (amended): root.go's gatherInput never panics whenever the
stdin Stat call yields a file info; only a failed Stat (nil file info,
reached with an empty pane target) panics. -/
theorem C9_total_when_stat_succeeds (tm : TmuxEnv) (stat : FileStat)
    (readResult : Except String String) (pane : String) (lines : Int) :
    RootCmd.isPanic (RootCmd.gatherInput tm (some stat) readResult pane lines) = false := by
  unfold RootCmd.gatherInput
  by_cases hp : pane ≠ ""
  · rw [if_pos hp]
    cases hv : tm.validateTarget pane with
    | error e => rfl
    | ok u =>
      cases hc : tm.capture pane lines with
      | error e => rfl
      | ok c => rfl
  · rw [if_neg hp]
    by_cases hc : stat.isCharDevice
    · simp [hc, RootCmd.isPanic]
    · simp only [hc, Bool.not_false, if_true]
      cases readResult with
      | error e => simp [RootCmd.isPanic]
      | ok d => simp [RootCmd.isPanic]

/-! Claim C1: model-selection precedence. -/



/-- Claim C1 counterexample: with the model flag set to M1 and a loaded
template declaring M2, the effective model handed to the backend is M2,
not M1: the template's model overrides the explicit flag. -/
theorem C1_counterexample :
    AskCmd.askFinalModel envM2 ["@t"] [] "" "M1" = Except.ok "M2"
    ∧ "M2" ≠ "M1" := by
  exact ⟨rfl, by decide⟩

/-- Claim C1 (amended): on the template path the effective model is the
template's declared model whenever it is non-empty — even when the flag
is set — else the flag value when set, else the hard-coded default; on
the direct-question path it is the flag value when set, else the
hard-coded default. -/
theorem C1_model_precedence (env : PromptEnv) (vars : List (String × String))
    (input flag arg : String) :
    (∀ (p : Template) (sys usr : String),
      strHasPfx arg "@" = true →
      env.load (arg.drop 1) = some p →
      p.execute (mapSet (cloneStringMap vars) "Input" input) = Except.ok (sys, usr) →
      AskCmd.askFinalModel env [arg] vars input flag =
        Except.ok (if p.Model = "" then (if flag = "" then defaultModel else flag)
          else p.Model))
    ∧ (strHasPfx arg "@" = false →
      AskCmd.askFinalModel env [arg] vars input flag =
        Except.ok (if flag = "" then defaultModel else flag)) := by
  constructor
  · intro p sys usr h1 h2 h3
    have hr := resolvePrompt_template_ok env arg [] vars input
      (if flag = "" then defaultModel else flag) p sys usr h1 h2 h3
    unfold AskCmd.askFinalModel
    dsimp only
    rw [hr]
    by_cases hm : p.Model = ""
    · have hem : (if flag = "" then defaultModel else flag) ≠ "" := by
        by_cases hf : flag = ""
        · simp [hf, defaultModel]
        · simp [hf]
      simp [hm, hem]
    · simp [hm]
  · intro h1
    have hr := resolvePrompt_direct env arg [] vars input
      (if flag = "" then defaultModel else flag) h1
    unfold AskCmd.askFinalModel
    dsimp only
    rw [hr]
    by_cases hf : flag = ""
    · simp [hf, defaultModel]
    · simp [hf]

/-- Claim C1 witness: the amended precedence evaluated at concrete
inputs, template and direct paths. -/
theorem C1_model_precedence_witness :
    AskCmd.askFinalModel envM2 ["@t"] [] "x" "M1" = Except.ok "M2"
    ∧ AskCmd.askFinalModel noTemplates ["hello"] [] "x" "M1" = Except.ok "M1" := by
  constructor
  · have h := (C1_model_precedence envM2 [] "x" "M1" "@t").1 tmplM2 "sys" "usr"
      (by rfl) (by rfl) (by rfl)
    simpa [tmplM2] using h
  · have h := (C1_model_precedence noTemplates [] "x" "M1" "hello").2 (by rfl)
    simpa using h

/-! Claim C2: backend selection in the bridge path. -/



/-- Claim C2 counterexample: the daemon marker file exists (so no
warning is emitted), yet the backend that answers is the fallback
external agent, not the primary daemon RPC. -/
theorem C2_counterexample :
    (RootCmd.bridgeBackendStep osEnvMarkerPresent execQuick "q").warned = false
    ∧ (RootCmd.bridgeBackendStep osEnvMarkerPresent execQuick "q").backend =
        RootCmd.BackendKind.fallbackAgent
    ∧ RootCmd.BackendKind.fallbackAgent ≠ RootCmd.BackendKind.daemonRPC := by
  exact ⟨rfl, rfl, by decide⟩

/-- Claim C2 (amended): existence of the daemon marker at the socket
path (ARC_AI_SOCKET, defaulting to the tilde-expanded
~/.config/arc/ai/daemon.sock) controls only the warning — emitted
exactly when the marker is absent — while the backend invoked is the
fallback external agent in every case; the daemon RPC is never used. -/
theorem C2_backend_selection (env : OSEnv) (ex : RootCmd.ExecEnv) (prompt : String) :
    (RootCmd.bridgeBackendStep env ex prompt).warned =
      !(env.fileExists (RootCmd.expandHome env (RootCmd.NewBridgeClient env).socketPath))
    ∧ (RootCmd.bridgeBackendStep env ex prompt).backend = RootCmd.BackendKind.fallbackAgent
    ∧ (RootCmd.NewBridgeClient env).socketPath =
        (if env.getenv "ARC_AI_SOCKET" = "" then "~/.config/arc/ai/daemon.sock"
         else env.getenv "ARC_AI_SOCKET")
    ∧ RootCmd.expandHome env "~/.config/arc/ai/daemon.sock" =
        env.userHomeDir ++ "/.config/arc/ai/daemon.sock" := by
  refine ⟨rfl, rfl, rfl, ?_⟩
  rfl

/-! Claim C4: missing-prompt failure. -/

/-- Claim C4 counterexample: with no positional argument but non-empty
collected input, the direct-client prompt assembly still fails with the
missing-prompt error, although the claim says it should succeed. -/
theorem C4_counterexample :
    resolvePrompt noTemplates [] [] "NPE at line 42\n" defaultModel =
      Except.error
        { message := "no prompt or question specified",
          suggestions :=
            ["Ask a direct question: arc-ask \"What is this?\"",
             "Use a template: arc-ask @detect-errors",
             "List templates: arc-ask --list-templates"] }
    ∧ "NPE at line 42\n" ≠ "" := by
  exact ⟨rfl, by decide⟩

/-- Claim C4 (amended): in the direct-client path the missing-prompt
error occurs precisely when there is no positional argument, regardless
of collected input, and a non-template free-text argument always
assembles successfully; in the bridge path the error occurs precisely
when the argument is absent and the collected input is empty. -/
theorem C4_missing_prompt (env : PromptEnv) (vars : List (String × String))
    (input dm arg : String) (args : List String) :
    (resolvePrompt env [] vars input dm =
      Except.error
        { message := "no prompt or question specified",
          suggestions :=
            ["Ask a direct question: arc-ask \"What is this?\"",
             "Use a template: arc-ask @detect-errors",
             "List templates: arc-ask --list-templates"] })
    ∧ (strHasPfx arg "@" = false →
        resolvePrompt env [arg] vars input dm =
          Except.ok ("", if input ≠ "" then arg ++ "\n\nInput:\n" ++ input else arg, dm))
    ∧ ((∃ e, RootCmd.buildPrompt args input = Except.error e) ↔
        (args = [] ∧ input = "")) := by
  refine ⟨rfl, fun h1 => resolvePrompt_direct env arg [] vars input dm h1, ?_⟩
  constructor
  · intro he
    by_cases h : args = [] ∧ input = ""
    · exact h
    · obtain ⟨e, he⟩ := he
      unfold RootCmd.buildPrompt at he
      rw [if_neg h] at he
      exact absurd he (by simp)
  · intro h
    refine ⟨{ message := "no prompt or input provided",
              suggestions :=
                ["Ask a question: arc-ask \x27What is this?\x27",
                 "Pipe input: cat file | arc-ask \x27Explain\x27",
                 "List templates: arc-ask --list-templates"] }, ?_⟩
    unfold RootCmd.buildPrompt
    rw [if_pos h]

/-- Claim C4 witness: the amended statement evaluated at concrete
inputs. -/
theorem C4_missing_prompt_witness :
    resolvePrompt noTemplates [] [] "t" "m" =
      Except.error
        { message := "no prompt or question specified",
          suggestions :=
            ["Ask a direct question: arc-ask \"What is this?\"",
             "Use a template: arc-ask @detect-errors",
             "List templates: arc-ask --list-templates"] }
    ∧ resolvePrompt noTemplates ["q"] [] "t" "m" = Except.ok ("", "q\n\nInput:\nt", "m")
    ∧ ((∃ e, RootCmd.buildPrompt [] "" = Except.error e) ↔
        (([] : List String) = [] ∧ ("" : String) = "")) := by
  refine ⟨(C4_missing_prompt noTemplates [] "t" "m" "q" []).1, ?_, ?_⟩
  · have h := (C4_missing_prompt noTemplates [] "t" "m" "q" []).2.1 (by rfl)
    simpa using h
  · exact (C4_missing_prompt noTemplates [] "" "m" "q" []).2.2

/-! Claim C7: the 60-second backend timeout. -/



/-- Claim C7 (code bug): the client fixes a 60-second timeout, yet a
fallback-agent subprocess that runs for 3600 seconds still completes
the interaction successfully with its own output — the run never
consults the timeout context (exec.Command, not exec.CommandContext),
so no distinct timeout error can ever be reported. -/
theorem C7_timeout_not_enforced :
    (RootCmd.NewBridgeClient osEnvMarkerPresent).timeoutSeconds = 60
    ∧ (execHangs.run "pi" ["--mode", "json", "--print", "q"]).durationSeconds = 3600
    ∧ 3600 > 60
    ∧ RootCmd.fallbackAsk execHangs 60 "q" [] = Except.ok "late answer"
    ∧ RootCmd.fallbackAsk execHangs 0 "q" [] = RootCmd.fallbackAsk execHangs 60 "q" [] := by
  exact ⟨rfl, rfl, by decide, rfl, rfl⟩

/-! Claim C8: structured rendering. -/



/-- Claim C8 counterexample: in the bridge path, JSON output for answer
"hi" is an object holding only the response field — the provider and
model fields required by the claim are absent. -/
theorem C8_counterexample :
    RootCmd.outputSwitch OutputMode.json "hi" = Rendered.jsonObject [("response", "hi")]
    ∧ renderedKeys (RootCmd.outputSwitch OutputMode.json "hi") = ["response"]
    ∧ ¬ "provider" ∈ renderedKeys (RootCmd.outputSwitch OutputMode.json "hi")
    ∧ ¬ "model" ∈ renderedKeys (RootCmd.outputSwitch OutputMode.json "hi") := by
  exact ⟨rfl, rfl, by decide, by decide⟩

/-- Claim C8 (amended): the direct-client renderer emits, for JSON and
YAML, an object with stable fields response (trimmed), provider and
model — present even when provider or model are empty strings — and
writes nothing in quiet mode; the bridge renderer's JSON object has
only the response field, its YAML mode falls through to plain text,
and its quiet mode writes nothing. -/
theorem C8_structured_rendering (respText provider model answer : String) :
    AskCmd.outputResult OutputMode.json respText provider model =
      Rendered.jsonObject
        [("response", strTrim respText), ("provider", provider), ("model", model)]
    ∧ AskCmd.outputResult OutputMode.yaml respText provider model =
      Rendered.yamlObject
        [("response", strTrim respText), ("provider", provider), ("model", model)]
    ∧ AskCmd.outputResult OutputMode.quiet respText provider model =
        Rendered.nothingWritten
    ∧ RootCmd.outputSwitch OutputMode.json answer = Rendered.jsonObject [("response", answer)]
    ∧ RootCmd.outputSwitch OutputMode.yaml answer = Rendered.plainLine answer
    ∧ RootCmd.outputSwitch OutputMode.quiet answer = Rendered.nothingWritten := by
  exact ⟨rfl, rfl, rfl, rfl, rfl, rfl⟩

/-! Claim C6: context merging. -/

/-- Step equation of the merge loop when the stripped reference is
empty: the reference is skipped. -/
theorem mergeContextLoop_skip (fs : String → FSEntry) (acc : String)
    (reads : List String) (raw : String) (rest : List String)
    (hp : stripRef raw = "") :
    AskCmd.mergeContextLoop fs acc reads (raw :: rest) =
      AskCmd.mergeContextLoop fs acc reads rest := by
  simp [AskCmd.mergeContextLoop, hp]

/-- Step equation of the merge loop when the stripped reference is a
readable file: the labelled content is appended and the path logged. -/
theorem mergeContextLoop_file (fs : String → FSEntry) (acc : String)
    (reads : List String) (raw : String) (rest : List String) (c : String)
    (hp : stripRef raw ≠ "") (hfs : fs (stripRef raw) = FSEntry.file c) :
    AskCmd.mergeContextLoop fs acc reads (raw :: rest) =
      AskCmd.mergeContextLoop fs
        (acc ++ "\n\nContext (" ++ stripRef raw ++ "):\n" ++ c)
        (reads ++ [stripRef raw]) rest := by
  simp [AskCmd.mergeContextLoop, hp, hfs]

/-- Step equation of the merge loop when the stripped reference is a
directory: rejected without any read of it. -/
theorem mergeContextLoop_dir (fs : String → FSEntry) (acc : String)
    (reads : List String) (raw : String) (rest : List String)
    (hp : stripRef raw ≠ "") (hfs : fs (stripRef raw) = FSEntry.dir) :
    AskCmd.mergeContextLoop fs acc reads (raw :: rest) =
      (reads, Except.error
        { message := "context path \"" ++ stripRef raw ++ "\" is a directory",
          hint := some "Provide a file path (e.g., README.md)" }) := by
  simp [AskCmd.mergeContextLoop, hp, hfs]

/-- Success shape of the merge loop: when every active reference is a
readable file, the loop returns the read log extended by the active
paths in order and the accumulator extended by the labelled contents. -/
theorem mergeContextLoop_all_files (fs : String → FSEntry) :
    ∀ (refs : List String) (acc : String) (reads : List String),
      (∀ p ∈ activeRefs refs, isFileB (fs p) = true) →
      AskCmd.mergeContextLoop fs acc reads refs =
        (reads ++ activeRefs refs,
         Except.ok (acc ++ contextAppendix fs (activeRefs refs))) := by
  intro refs
  induction refs with
  | nil =>
    intro acc reads _
    simp [AskCmd.mergeContextLoop, activeRefs, contextAppendix]
  | cons raw rest ih =>
    intro acc reads h
    by_cases hp : stripRef raw = ""
    · have hact : activeRefs (raw :: rest) = activeRefs rest := by
        simp [activeRefs, hp]
      rw [mergeContextLoop_skip fs acc reads raw rest hp, hact]
      refine ih acc reads ?_
      intro p hmem
      exact h p (by rw [hact]; exact hmem)
    · have hact : activeRefs (raw :: rest) = stripRef raw :: activeRefs rest := by
        simp [activeRefs, hp]
      have hmem : stripRef raw ∈ activeRefs (raw :: rest) := by
        rw [hact]; exact List.mem_cons_self _ _
      have hfb := h _ hmem
      cases hfs : fs (stripRef raw) with
      | file c =>
        rw [mergeContextLoop_file fs acc reads raw rest c hp hfs]
        rw [ih _ _ (fun p hmem2 => h p (by rw [hact]; exact List.mem_cons_of_mem _ hmem2))]
        rw [hact]
        simp only [Prod.mk.injEq]
        refine ⟨by simp, ?_⟩
        simp only [contextAppendix, hfs, fileContent]
        simp [String.append_assoc]
      | unreadable c => rw [hfs] at hfb; simp [isFileB] at hfb
      | dir => rw [hfs] at hfb; simp [isFileB] at hfb
      | missing c => rw [hfs] at hfb; simp [isFileB] at hfb

/-- The merge loop only logs reads of paths that are not directories. -/
theorem mergeContextLoop_reads_not_dir (fs : String → FSEntry) :
    ∀ (refs : List String) (acc : String) (reads : List String),
      (∀ p ∈ reads, fs p ≠ FSEntry.dir) →
      ∀ p ∈ (AskCmd.mergeContextLoop fs acc reads refs).fst, fs p ≠ FSEntry.dir := by
  intro refs
  induction refs with
  | nil =>
    intro acc reads h
    simpa [AskCmd.mergeContextLoop] using h
  | cons raw rest ih =>
    intro acc reads h
    by_cases hp : stripRef raw = ""
    · rw [mergeContextLoop_skip fs acc reads raw rest hp]
      exact ih acc reads h
    · have hgrow : ∀ c, fs (stripRef raw) = FSEntry.file c →
          ∀ p ∈ reads ++ [stripRef raw], fs p ≠ FSEntry.dir := by
        intro c hfs p hmem
        rcases List.mem_append.mp hmem with hmem | hmem
        · exact h p hmem
        · rw [List.mem_singleton.mp hmem, hfs]
          simp
      cases hfs : fs (stripRef raw) with
      | file c =>
        rw [mergeContextLoop_file fs acc reads raw rest c hp hfs]
        exact ih _ _ (hgrow c hfs)
      | unreadable c =>
        have hstep : AskCmd.mergeContextLoop fs acc reads (raw :: rest) =
            (reads ++ [stripRef raw], Except.error
              { message := "failed to read context \"" ++ stripRef raw ++ "\"",
                cause := some c }) := by
          simp [AskCmd.mergeContextLoop, hp, hfs]
        rw [hstep]
        intro p hmem
        rcases List.mem_append.mp hmem with hmem | hmem
        · exact h p hmem
        · rw [List.mem_singleton.mp hmem, hfs]
          simp
      | dir =>
        rw [mergeContextLoop_dir fs acc reads raw rest hp hfs]
        exact h
      | missing c =>
        have hstep : AskCmd.mergeContextLoop fs acc reads (raw :: rest) =
            (reads, Except.error
              { message := "failed to read context \"" ++ stripRef raw ++ "\"",
                cause := some c,
                hint := some "Ensure the file exists and is accessible" }) := by
          simp [AskCmd.mergeContextLoop, hp, hfs]
        rw [hstep]
        exact h

/-- Any active reference that is not a readable file makes the whole
merge fail: no merged prompt is produced. -/
theorem mergeContextLoop_bad_ref (fs : String → FSEntry) :
    ∀ (refs : List String) (acc : String) (reads : List String),
      (∃ p ∈ activeRefs refs, isFileB (fs p) = false) →
      exceptIsOk (AskCmd.mergeContextLoop fs acc reads refs).snd = false := by
  intro refs
  induction refs with
  | nil =>
    intro acc reads h
    simp [activeRefs] at h
  | cons raw rest ih =>
    intro acc reads h
    by_cases hp : stripRef raw = ""
    · rw [mergeContextLoop_skip fs acc reads raw rest hp]
      refine ih acc reads ?_
      have hact : activeRefs (raw :: rest) = activeRefs rest := by
        simp [activeRefs, hp]
      rw [hact] at h
      exact h
    · cases hfs : fs (stripRef raw) with
      | file c =>
        rw [mergeContextLoop_file fs acc reads raw rest c hp hfs]
        refine ih _ _ ?_
        obtain ⟨p, hmem, hbad⟩ := h
        have hact : activeRefs (raw :: rest) = stripRef raw :: activeRefs rest := by
          simp [activeRefs, hp]
        rw [hact] at hmem
        rcases List.mem_cons.mp hmem with hmem | hmem
        · rw [hmem, hfs] at hbad
          simp [isFileB] at hbad
        · exact ⟨p, hmem, hbad⟩
      | unreadable c =>
        have hstep : AskCmd.mergeContextLoop fs acc reads (raw :: rest) =
            (reads ++ [stripRef raw], Except.error
              { message := "failed to read context \"" ++ stripRef raw ++ "\"",
                cause := some c }) := by
          simp [AskCmd.mergeContextLoop, hp, hfs]
        rw [hstep]
        rfl
      | dir =>
        rw [mergeContextLoop_dir fs acc reads raw rest hp hfs]
        rfl
      | missing c =>
        have hstep : AskCmd.mergeContextLoop fs acc reads (raw :: rest) =
            (reads, Except.error
              { message := "failed to read context \"" ++ stripRef raw ++ "\"",
                cause := some c,
                hint := some "Ensure the file exists and is accessible" }) := by
          simp [AskCmd.mergeContextLoop, hp, hfs]
        rw [hstep]
        rfl

/-- Claim C6: for every ordered list of context references, a fully
successful merge yields the prompt followed by each referenced file's
content in list order, each preceded by a label line naming its path;
a directory path never appears in the read log; and any active
reference that is not a readable file (in particular a directory)
makes the merge produce an error instead of a merged prompt. -/
theorem C6_context_merging (fs : String → FSEntry) (promptText : String)
    (refs : List String) :
    ((∀ p ∈ activeRefs refs, isFileB (fs p) = true) →
      AskCmd.mergeContextToPrompt fs promptText refs =
        (activeRefs refs,
         Except.ok (promptText ++ contextAppendix fs (activeRefs refs))))
    ∧ (∀ d, fs d = FSEntry.dir →
        d ∉ (AskCmd.mergeContextToPrompt fs promptText refs).fst)
    ∧ ((∃ p ∈ activeRefs refs, isFileB (fs p) = false) →
        exceptIsOk (AskCmd.mergeContextToPrompt fs promptText refs).snd = false) := by
  cases refs with
  | nil =>
    refine ⟨fun _ => ?_, fun d _ => ?_, fun h => ?_⟩
    · simp [AskCmd.mergeContextToPrompt, activeRefs, contextAppendix]
    · simp [AskCmd.mergeContextToPrompt]
    · simp [activeRefs] at h
  | cons raw rest =>
    have hwrap : AskCmd.mergeContextToPrompt fs promptText (raw :: rest) =
        AskCmd.mergeContextLoop fs promptText [] (raw :: rest) := rfl
    refine ⟨fun h => ?_, fun d hd => ?_, fun h => ?_⟩
    · rw [hwrap, mergeContextLoop_all_files fs (raw :: rest) promptText [] h]
      simp
    · rw [hwrap]
      intro hmem
      exact mergeContextLoop_reads_not_dir fs (raw :: rest) promptText []
        (by intro p hp; simp at hp) d hmem (by rw [hd])
    · rw [hwrap]
      exact mergeContextLoop_bad_ref fs (raw :: rest) promptText [] h



/-- Claim C6 witness: the merge theorem evaluated at a concrete file
system, with a successful two-file merge (one reference carrying
whitespace and a sigil) and a rejected directory reference. -/
theorem C6_context_merging_witness :
    AskCmd.mergeContextToPrompt fsTwoFiles "P" ["a.txt", " @b.txt "] =
      (["a.txt", "b.txt"],
       Except.ok "P\n\nContext (a.txt):\nA\n\nContext (b.txt):\nB")
    ∧ exceptIsOk (AskCmd.mergeContextToPrompt fsTwoFiles "P" ["somedir"]).snd = false := by
  constructor
  · have h := (C6_context_merging fsTwoFiles "P" ["a.txt", " @b.txt "]).1 (by decide)
    exact h.trans (by decide)
  · exact (C6_context_merging fsTwoFiles "P" ["somedir"]).2.2
      ⟨"somedir", by decide, by decide⟩

end ArcAsk
